import Mathlib

/-!
Shallow embedding of the DiscordWeb relay server (src/server.js) in Lean 4.

The server keeps three pieces of in-process mutable state: the list
`webhooks` of registered endpoints, the success cache `webhookCache`
(a JS `Map` from URL strings to validated webhook records) and the
cooldown map `lastAttempts` (a JS `Map` from URL strings to the
timestamp, in milliseconds, of the last validation attempt).

JS `Map`s are embedded as association lists of key/value pairs with
`get` / `set` / `has` mirroring the `Map` API.  Outbound network calls
(the validation GET, the relay POST, the bot-API channel resolution and
message fetch) are suspension points whose outcome the handler cannot
influence; they are embedded as oracle arguments describing what the
remote side did, and each handler additionally returns the number of
outbound calls it performed, so that "no network call is made" claims
are statements about that count.
-/

/-- Lookup in a JS-style map: the value stored at key `k`, if present
(mirrors `Map.prototype.get`). -/
def mapGet {α : Type} (m : List (String × α)) (k : String) : Option α :=
  (m.find? (fun e => e.1 == k)).map (fun e => e.2)

/-- Membership in a JS-style map (mirrors `Map.prototype.has`). -/
def mapHas {α : Type} (m : List (String × α)) (k : String) : Bool :=
  (m.find? (fun e => e.1 == k)).isSome

/-- Update of a JS-style map: replaces the entry at key `k` if present,
otherwise appends it (mirrors `Map.prototype.set`). -/
def mapSet {α : Type} : List (String × α) → String → α → List (String × α)
  | [], k, v => [(k, v)]
  | e :: rest, k, v => if e.1 == k then (k, v) :: rest else e :: mapSet rest k v

/-- A registered outgoing webhook, as built by `validateWebhook` in
src/server.js (fields `id`, `name`, `avatar`, `channelId`, `url`). -/
structure Webhook where
  id : String
  name : String
  avatar : String
  channelId : String
  url : String
deriving DecidableEq, Repr

/-- The JSON fields the validation GET reads from the response body
(`data.id`, `data.name`, `data.avatar`, `data.channel_id`); `name` and
`avatar` may be absent or empty, which JS treats as falsy. -/
structure WebhookJson where
  id : String
  name : Option String
  avatar : Option String
  channel_id : String
deriving DecidableEq, Repr

/-- JS truthiness-based defaulting `v || d` for an optional string field:
`undefined`/`null` and the empty string fall back to the default. -/
def jsOrElse (v : Option String) (d : String) : String :=
  match v with
  | some s => if s == "" then d else s
  | none => d

/-- The platform default avatar image used when a webhook or author has
no avatar set. -/
def defaultAvatarUrl : String :=
  "https://cdn.discordapp.com/embed/avatars/0.png"

/-- Construction of the stored webhook record from the parsed validation
response (src/server.js lines 103-111): placeholder name when `data.name`
is falsy, resolved avatar URL or the platform default image. -/
def buildWebhook (url : String) (d : WebhookJson) : Webhook :=
  { id := d.id
    name := jsOrElse d.name "Unnamed Webhook"
    avatar :=
      match d.avatar with
      | some a =>
        if a == "" then defaultAvatarUrl
        else "https://cdn.discordapp.com/avatars/" ++ d.id ++ "/" ++ a ++ ".png"
      | none => defaultAvatarUrl
    channelId := d.channel_id
    url := url }

/-- Outcome of the validation GET as seen by `validateWebhook`: either
`fetch` rejected (network error, timeout, module not loaded), or a
response arrived with a status, an optional `retry-after` header value
and a body whose JSON parse may itself fail. -/
inductive FetchOutcome where
  | thrown (msg : String)
  | response (status : Nat) (retryAfter : Option String) (body : Except String WebhookJson)
deriving Repr

/-- Mirrors `response.ok` of the fetch API: status in the range 200-299. -/
def respOk (status : Nat) : Bool :=
  decide (200 ≤ status) && decide (status < 300)

/-- Error outcomes of `validateWebhook` (variant with immediate
rate-limit failure): the cooldown rejection, the 429 rejection carrying
the `retry-after` header text, the non-success status rejection, and any
thrown fetch/JSON error. -/
inductive VErr where
  | tooManyAttempts
  | rateLimited (retryAfter : String)
  | invalidWebhook (status : Nat)
  | fetchFailed (msg : String)
deriving DecidableEq, Repr

/-- Result of one `validateWebhook` call. -/
inductive VResult where
  | ok (w : Webhook)
  | err (e : VErr)
deriving DecidableEq, Repr

/-- The shared mutable server state: registry list, success cache and
cooldown map (src/server.js lines 68-70). -/
structure ServerState where
  webhooks : List Webhook
  webhookCache : List (String × Webhook)
  lastAttempts : List (String × Nat)
deriving DecidableEq, Repr

/-- The fixed cooldown window in milliseconds (src/server.js line 75). -/
def cooldownMs : Nat := 5000

/-- The cooldown gate of `validateWebhook` (line 77):
`lastAttempts.has(url) && now - lastAttempts.get(url) < cooldownMs`. -/
def cooldownBlocked (m : List (String × Nat)) (u : String) (now : Nat) : Bool :=
  match mapGet m u with
  | some t => decide (now - t < cooldownMs)
  | none => false

/-- The part of `validateWebhook` after the cooldown gate (src/server.js
lines 82-118): cache short-circuit, then the guarded GET — 429 fails
immediately carrying the `retry-after` header text, any non-2xx status
fails, a thrown fetch or JSON error fails, and a parsed success writes
the cache.  `st1` is the state with the attempt already recorded. -/
def validateFetchStep (f : FetchOutcome) (st1 : ServerState) (u : String) :
    VResult × ServerState × Nat :=
  match mapGet st1.webhookCache u with
  | some w => (VResult.ok w, st1, 0)
  | none =>
    match f with
    | FetchOutcome.thrown m => (VResult.err (VErr.fetchFailed m), st1, 1)
    | FetchOutcome.response status retryAfter body =>
      if status == 429 then
        (VResult.err (VErr.rateLimited (retryAfter.getD "unknown")), st1, 1)
      else if respOk status then
        match body with
        | Except.error m => (VResult.err (VErr.fetchFailed m), st1, 1)
        | Except.ok d =>
          (VResult.ok (buildWebhook u d),
            { st1 with webhookCache := mapSet st1.webhookCache u (buildWebhook u d) }, 1)
      else
        (VResult.err (VErr.invalidWebhook status), st1, 1)

/-- Embedding of `validateWebhook` (src/server.js lines 73-119, the
variant that fails immediately on a 429).  Returns the result, the new
server state and the number of outbound GETs performed.  The cooldown
rejection happens before the cooldown map is written; every path past
the gate first writes `lastAttempts[url] := now` and then runs
`validateFetchStep`. -/
def validateWebhook (f : FetchOutcome) (now : Nat) (st : ServerState) (u : String) :
    VResult × ServerState × Nat :=
  if cooldownBlocked st.lastAttempts u now then
    (VResult.err VErr.tooManyAttempts, st, 0)
  else
    validateFetchStep f { st with lastAttempts := mapSet st.lastAttempts u now } u

/-- Result of the `POST /add-webhook` handler, one constructor per
response the handler can produce: 400 invalid format, 400 duplicate,
429 with the validation error, or 200 with the webhook. -/
inductive RegisterResult where
  | invalidFormat
  | duplicate
  | validationError (e : VErr)
  | success (w : Webhook)
deriving DecidableEq, Repr

/-- The required URL form check of the handler (line 124):
`url.startsWith('https://discord.com/api/webhooks/')`, embedded as a
character-list prefix test. -/
def startsWithWebhookBase (u : String) : Bool :=
  "https://discord.com/api/webhooks/".data.isPrefixOf u.data

/-- Embedding of the `POST /add-webhook` handler (src/server.js lines
122-146): format check, validation, registry duplicate scan on `url`,
then append.  Returns the handler result, the new state and the number
of outbound GETs performed. -/
def addWebhook (f : FetchOutcome) (now : Nat) (st : ServerState) (u : String) :
    RegisterResult × ServerState × Nat :=
  if startsWithWebhookBase u then
    match validateWebhook f now st u with
    | (VResult.err e, st1, n) => (RegisterResult.validationError e, st1, n)
    | (VResult.ok w, st1, n) =>
      if st1.webhooks.any (fun x => x.url == u) then
        (RegisterResult.duplicate, st1, n)
      else
        (RegisterResult.success w, { st1 with webhooks := st1.webhooks ++ [w] }, n)
  else
    (RegisterResult.invalidFormat, st, 0)

/-- Metadata of one uploaded file part (multer's `originalname` and
`mimetype`); the binary buffer itself plays no role in the claims. -/
structure FilePart where
  originalname : String
  mimetype : String
deriving DecidableEq, Repr

/-- Outcome of the relay POST to the webhook URL. -/
inductive PostOutcome where
  | thrown (msg : String)
  | response (status : Nat) (bodyText : String)
deriving Repr

/-- Result of the `POST /send-message` handler: 400 missing id, 404
unknown webhook, 400 empty message, 500 on a non-success remote status
(`RelayFailed`), 500 on a thrown outbound error, or 200 success. -/
inductive SendResult where
  | idRequired
  | notFound
  | emptyMessage
  | relayFailed (status : Nat) (errText : String)
  | sendError (msg : String)
  | success
deriving DecidableEq, Repr

/-- JS falsiness of an optional string request field: absent or empty. -/
def strFalsy (s : Option String) : Bool :=
  match s with
  | none => true
  | some v => v == ""

/-- Embedding of the `POST /send-message` handler (src/server.js lines
149-178): id presence check, registry lookup by id, emptiness check,
then the outbound POST.  Returns the handler result and the number of
outbound POSTs performed. -/
def sendMessage (p : PostOutcome) (st : ServerState) (webhookId : String)
    (content : Option String) (file : Option FilePart) : SendResult × Nat :=
  if webhookId == "" then (SendResult.idRequired, 0)
  else
    match st.webhooks.find? (fun w => w.id == webhookId) with
    | none => (SendResult.notFound, 0)
    | some _ =>
      if strFalsy content && file.isNone then (SendResult.emptyMessage, 0)
      else
        match p with
        | PostOutcome.thrown m => (SendResult.sendError m, 1)
        | PostOutcome.response status bodyText =>
          if respOk status then (SendResult.success, 1)
          else (SendResult.relayFailed status bodyText, 1)

/-- Result of the `DELETE /webhook/:id` handler. -/
inductive DeleteResult where
  | notFound
  | success
deriving DecidableEq, Repr

/-- The `findIndex` + `splice(index, 1)` pair of the delete handler,
folded into one pass: `none` when no element has the id (findIndex gave
-1), otherwise the list with the first matching element removed. -/
def spliceFirstById : List Webhook → String → Option (List Webhook)
  | [], _ => none
  | w :: rest, i =>
    if w.id == i then some rest
    else (spliceFirstById rest i).map (fun t => w :: t)

/-- Embedding of the `DELETE /webhook/:id` handler (src/server.js lines
181-187): only the registry list is touched, never the cache or the
cooldown map. -/
def deleteWebhook (st : ServerState) (i : String) : DeleteResult × ServerState :=
  match spliceFirstById st.webhooks i with
  | none => (DeleteResult.notFound, st)
  | some l => (DeleteResult.success, { st with webhooks := l })

/-- One embed field of a remote message. -/
structure EmbedField where
  name : String
  value : String
deriving DecidableEq, Repr

/-- A remote message embed as read from the bot API. -/
structure RawEmbed where
  title : Option String
  description : Option String
  fields : List EmbedField
  thumbnailUrl : Option String
  imageUrl : Option String
deriving DecidableEq, Repr

/-- A remote message attachment as read from the bot API. -/
structure RawAttachment where
  url : String
  name : String
  contentType : Option String
deriving DecidableEq, Repr

/-- A remote message as read from the bot API before normalization. -/
structure RawMessage where
  id : String
  content : String
  authorUsername : String
  authorAvatarURL : Option String
  createdAtISO : String
  embeds : List RawEmbed
  attachments : List RawAttachment
deriving DecidableEq, Repr

/-- Normalized author shape: avatar falls back to the platform default
image (src/server.js line 205). -/
structure FormattedAuthor where
  username : String
  avatar : String
deriving DecidableEq, Repr

/-- Normalized embed shape (src/server.js line 207). -/
structure FormattedEmbed where
  title : Option String
  description : Option String
  fields : List EmbedField
  thumbnail : Option String
  image : Option String
deriving DecidableEq, Repr

/-- Normalized attachment shape (src/server.js line 208). -/
structure FormattedAttachment where
  url : String
  filename : String
  contentType : Option String
deriving DecidableEq, Repr

/-- Normalized message shape returned by the fetch-messages handler. -/
structure FormattedMessage where
  id : String
  content : String
  author : FormattedAuthor
  timestamp : String
  embeds : List FormattedEmbed
  attachments : List FormattedAttachment
deriving DecidableEq, Repr

/-- The per-message normalization of src/server.js lines 202-209. -/
def formatMessage (m : RawMessage) : FormattedMessage :=
  { id := m.id
    content := m.content
    author :=
      { username := m.authorUsername
        avatar := jsOrElse m.authorAvatarURL defaultAvatarUrl }
    timestamp := m.createdAtISO
    embeds := m.embeds.map (fun e =>
      { title := e.title
        description := e.description
        fields := e.fields.map (fun f => { name := f.name, value := f.value })
        thumbnail := e.thumbnailUrl
        image := e.imageUrl })
    attachments := m.attachments.map (fun a =>
      { url := a.url, filename := a.name, contentType := a.contentType }) }

/-- What the bot sees of a resolved channel: whether it is text-capable
and whether the bot holds the two required permission flags there. -/
structure Channel where
  textBased : Bool
  viewChannel : Bool
  readMessageHistory : Bool
deriving DecidableEq, Repr

/-- Outcome of `client.channels.fetch`: the promise may reject (the
remote platform answered with an error, e.g. Unknown Channel), or it
resolves to a channel or to nothing. -/
inductive ResolveOutcome where
  | thrown (msg : String)
  | resolved (ch : Option Channel)
deriving Repr

/-- Outcome of `channel.messages.fetch({ limit: 50 })`. -/
inductive MessagesOutcome where
  | thrown (msg : String)
  | fetched (msgs : List RawMessage)
deriving Repr

/-- Result of the `GET /messages/:channelId` handler. -/
inductive FetchMessagesResult where
  | invalidChannel
  | missingPermissions
  | fetchFailed (msg : String)
  | ok (msgs : List FormattedMessage)
deriving DecidableEq, Repr

/-- HTTP status the fetch-messages handler pairs with each result. -/
def fetchMessagesStatus : FetchMessagesResult → Nat
  | FetchMessagesResult.invalidChannel => 400
  | FetchMessagesResult.missingPermissions => 403
  | FetchMessagesResult.fetchFailed _ => 500
  | FetchMessagesResult.ok _ => 200

/-- Embedding of the `GET /messages/:channelId` handler (src/server.js
lines 190-217).  The whole body sits in one try/catch: a rejection of
either remote call lands in the catch, which answers 500 with the
wrapped message; the 400 branch fires only when resolution yields no
channel or a non-text-capable one. -/
def fetchMessages (r : ResolveOutcome) (m : MessagesOutcome) : FetchMessagesResult :=
  match r with
  | ResolveOutcome.thrown e =>
    FetchMessagesResult.fetchFailed ("Failed to fetch messages: " ++ e)
  | ResolveOutcome.resolved none => FetchMessagesResult.invalidChannel
  | ResolveOutcome.resolved (some ch) =>
    if !ch.textBased then FetchMessagesResult.invalidChannel
    else if !(ch.viewChannel && ch.readMessageHistory) then
      FetchMessagesResult.missingPermissions
    else
      match m with
      | MessagesOutcome.thrown e =>
        FetchMessagesResult.fetchFailed ("Failed to fetch messages: " ++ e)
      | MessagesOutcome.fetched msgs =>
        FetchMessagesResult.ok (msgs.map formatMessage)

/-- Outcome of one validation GET in the capped-wait deployment variant:
the `retry-after` header is parsed with `parseInt`, so it is embedded as
an optional number of seconds (`none` models a missing or non-numeric
header, whose `parseInt` is `NaN`). -/
inductive CappedResp where
  | thrown (msg : String)
  | response (status : Nat) (retryAfterSecs : Option Nat) (body : Except String WebhookJson)
deriving Repr

/-- Error outcomes of the capped-wait `validateWebhook` variant. -/
inductive CappedErr where
  | tooManyAttempts
  | rateLimitTooLong (ms : Nat)
  | invalidWebhook (status : Nat)
  | fetchFailed (msg : String)
deriving DecidableEq, Repr

/-- Result of a capped-wait validation run bounded by fuel: a normal
return, a thrown error, or exhaustion of the fuel bound — the last
meaning the concrete recursion of the source ran deeper than the given
bound without finishing. -/
inductive CappedOutcome where
  | ok (w : Webhook)
  | err (e : CappedErr)
  | fuelExhausted
deriving DecidableEq, Repr

/-- The 10-second cap on the accepted rate-limit delay in the capped
variant (src/server.js line 305). -/
def maxRetryAfterMs : Nat := 10000

/-- The `parseInt(header) * 1000 || 0` computation of src/server.js
line 317: a missing or non-numeric header yields 0. -/
def retryAfterMs (h : Option Nat) : Nat := h.getD 0 * 1000

/-- Embedding of the capped-wait `validateWebhook` variant (src/server.js
lines 295-344).  `resp k` is the outcome of the k-th validation GET; on
a 429 with an acceptable delay the code sleeps for the delay and calls
itself again, so the embedding recurses with the clock advanced by the
delay.  The source recursion has no depth bound of its own; `fuel`
bounds the unrolling, and `fuelExhausted` reports that the bound was hit
with the recursion still running.  The last component counts the
outbound GETs performed. -/
def validateWebhookCapped (resp : Nat → CappedResp) (u : String) :
    Nat → Nat → Nat → ServerState → CappedOutcome × ServerState × Nat
  | fuel, k, now, st =>
    if cooldownBlocked st.lastAttempts u now then
      (CappedOutcome.err CappedErr.tooManyAttempts, st, 0)
    else
      let st1 : ServerState := { st with lastAttempts := mapSet st.lastAttempts u now }
      match mapGet st1.webhookCache u with
      | some w => (CappedOutcome.ok w, st1, 0)
      | none =>
        match resp k with
        | CappedResp.thrown m => (CappedOutcome.err (CappedErr.fetchFailed m), st1, 1)
        | CappedResp.response status h body =>
          if status == 429 then
            let ra := retryAfterMs h
            if ra > maxRetryAfterMs then
              (CappedOutcome.err (CappedErr.rateLimitTooLong ra), st1, 1)
            else
              match fuel with
              | 0 => (CappedOutcome.fuelExhausted, st1, 1)
              | Nat.succ fuel2 =>
                let r := validateWebhookCapped resp u fuel2 (k + 1) (now + ra) st1
                (r.1, r.2.1, r.2.2 + 1)
          else if respOk status then
            match body with
            | Except.error m => (CappedOutcome.err (CappedErr.fetchFailed m), st1, 1)
            | Except.ok d =>
              let w := buildWebhook u d
              (CappedOutcome.ok w,
                { st1 with webhookCache := mapSet st1.webhookCache u w }, 1)
          else
            (CappedOutcome.err (CappedErr.invalidWebhook status), st1, 1)

/-- A remote that answers every validation GET with HTTP 429 and a
`retry-after` of 6 seconds: long enough to outlast the 5-second
cooldown, short enough to pass the 10-second cap. -/
def alwaysRateLimited : Nat → CappedResp :=
  fun _ => CappedResp.response 429 (some 6) (Except.ok
    { id := "123", name := some "Bot", avatar := none, channel_id := "999" })

/-- The empty initial server state. -/
def emptyState : ServerState :=
  { webhooks := [], webhookCache := [], lastAttempts := [] }

/-- A well-formed webhook URL used in concrete runs. -/
def urlA : String := "https://discord.com/api/webhooks/123/abc"

/-- A second well-formed webhook URL. -/
def urlB : String := "https://discord.com/api/webhooks/777/xyz"

/-- The validation response body used in concrete runs. -/
def jsonA : WebhookJson :=
  { id := "123", name := some "Bot", avatar := none, channel_id := "999" }

/-- A successful validation response. -/
def fetchOkA : FetchOutcome := FetchOutcome.response 200 none (Except.ok jsonA)

/-- The webhook record the concrete successful validation builds. -/
def webhookA : Webhook := buildWebhook urlA jsonA

/-- Whether every cache entry stores a webhook whose `url` field equals
its key — an invariant of all reachable states, since the cache is only
ever written by `validateWebhook` with the key it was called on. -/
def cacheConsistent (m : List (String × Webhook)) : Bool :=
  m.all (fun e => e.2.url == e.1)

/-- A state in which a validation attempt for `urlA` was recorded at
time 0 and nothing else happened. -/
def stCooldownA : ServerState :=
  { webhooks := [], webhookCache := [], lastAttempts := [(urlA, 0)] }

/-- The state after one successful registration of `urlA` into the
empty state at time 0. -/
def stRegisteredA : ServerState := (addWebhook fetchOkA 0 emptyState urlA).2.1

/-- A successful outcome of the relay POST (Discord answers 204). -/
def postOk : PostOutcome := PostOutcome.response 204 ""

theorem mapGet_mapSet_self {α : Type} (m : List (String × α)) (k : String) (v : α) :
    mapGet (mapSet m k v) k = some v := by
  induction m with
  | nil => simp [mapGet, mapSet]
  | cons e rest ih =>
    by_cases h : e.1 == k
    · simp [mapSet, h, mapGet]
    · simpa [mapSet, h, mapGet] using ih

theorem mapGet_mem {α : Type} (m : List (String × α)) (k : String) (v : α)
    (h : mapGet m k = some v) : (k, v) ∈ m := by
  simp only [mapGet, Option.map_eq_some'] at h
  obtain ⟨e, he, hev⟩ := h
  have hk := List.find?_some he
  have hm := List.mem_of_find?_eq_some he
  simp only [beq_iff_eq] at hk
  have : e = (k, v) := by
    cases e
    simp_all
  rwa [this] at hm

theorem validateWebhook_blocked (f : FetchOutcome) (now : Nat) (st : ServerState)
    (u : String) (h : cooldownBlocked st.lastAttempts u now = true) :
    validateWebhook f now st u = (VResult.err VErr.tooManyAttempts, st, 0) := by
  simp [validateWebhook, h]

theorem validateFetchStep_webhooks (f : FetchOutcome) (st1 : ServerState) (u : String) :
    (validateFetchStep f st1 u).2.1.webhooks = st1.webhooks := by
  unfold validateFetchStep
  split
  · rfl
  · split
    · rfl
    · split
      · rfl
      · split
        · split <;> rfl
        · rfl

theorem validateFetchStep_lastAttempts (f : FetchOutcome) (st1 : ServerState) (u : String) :
    (validateFetchStep f st1 u).2.1.lastAttempts = st1.lastAttempts := by
  unfold validateFetchStep
  split
  · rfl
  · split
    · rfl
    · split
      · rfl
      · split
        · split <;> rfl
        · rfl

theorem validateFetchStep_cache_or_ok (f : FetchOutcome) (st1 : ServerState) (u : String) :
    (validateFetchStep f st1 u).2.1.webhookCache = st1.webhookCache
    ∨ ∃ w, (validateFetchStep f st1 u).1 = VResult.ok w := by
  unfold validateFetchStep
  split
  · exact Or.inl rfl
  · split
    · exact Or.inl rfl
    · split
      · exact Or.inl rfl
      · split
        · split
          · exact Or.inl rfl
          · exact Or.inr ⟨_, rfl⟩
        · exact Or.inl rfl

theorem validateFetchStep_err_cache (f : FetchOutcome) (st1 : ServerState) (u : String)
    (e : VErr) (h : (validateFetchStep f st1 u).1 = VResult.err e) :
    (validateFetchStep f st1 u).2.1.webhookCache = st1.webhookCache := by
  rcases validateFetchStep_cache_or_ok f st1 u with hc | ⟨w, hw⟩
  · exact hc
  · rw [h] at hw
    cases hw

theorem validateFetchStep_not_tma (f : FetchOutcome) (st1 : ServerState) (u : String) :
    (validateFetchStep f st1 u).1 ≠ VResult.err VErr.tooManyAttempts := by
  unfold validateFetchStep
  split
  · simp
  · split
    · simp
    · split
      · simp
      · split
        · split <;> simp
        · simp

theorem validateFetchStep_cacheHit (f : FetchOutcome) (st1 : ServerState) (u : String)
    (w : Webhook) (hc : mapGet st1.webhookCache u = some w) :
    validateFetchStep f st1 u = (VResult.ok w, st1, 0) := by
  unfold validateFetchStep
  rw [hc]

theorem validateFetchStep_ok_cacheGet (f : FetchOutcome) (st1 : ServerState) (u : String) :
    ∀ w, (validateFetchStep f st1 u).1 = VResult.ok w →
      mapGet (validateFetchStep f st1 u).2.1.webhookCache u = some w := by
  unfold validateFetchStep
  split
  · rename_i w0 hc
    intro w h
    simp only [VResult.ok.injEq] at h
    subst h
    exact hc
  · split
    · intro w h
      cases h
    · split
      · intro w h
        cases h
      · split
        · split
          · intro w h
            cases h
          · intro w h
            simp only [VResult.ok.injEq] at h
            rw [← h]
            exact mapGet_mapSet_self _ _ _
        · intro w h
          cases h

theorem cacheConsistent_get (m : List (String × Webhook)) (k : String) (w : Webhook)
    (hm : cacheConsistent m = true) (h : mapGet m k = some w) : w.url = k := by
  have hmem := mapGet_mem m k w h
  simp only [cacheConsistent, List.all_eq_true] at hm
  have := hm _ hmem
  simpa using this

theorem validateFetchStep_ok_url (f : FetchOutcome) (st1 : ServerState) (u : String)
    (hcc : cacheConsistent st1.webhookCache = true) :
    ∀ w, (validateFetchStep f st1 u).1 = VResult.ok w → w.url = u := by
  unfold validateFetchStep
  split
  · rename_i w0 hc
    intro w h
    simp only [VResult.ok.injEq] at h
    subst h
    exact cacheConsistent_get _ _ _ hcc hc
  · split
    · intro w h
      cases h
    · split
      · intro w h
        cases h
      · split
        · split
          · intro w h
            cases h
          · intro w h
            simp only [VResult.ok.injEq] at h
            rw [← h]
            rfl
        · intro w h
          cases h

theorem validateWebhook_not_blocked (f : FetchOutcome) (now : Nat) (st : ServerState)
    (u : String) (hb : cooldownBlocked st.lastAttempts u now = false) :
    validateWebhook f now st u =
      validateFetchStep f { st with lastAttempts := mapSet st.lastAttempts u now } u := by
  simp [validateWebhook, hb]

theorem validateWebhook_tma_iff (f : FetchOutcome) (now : Nat) (st : ServerState)
    (u : String) :
    (validateWebhook f now st u).1 = VResult.err VErr.tooManyAttempts ↔
      cooldownBlocked st.lastAttempts u now = true := by
  constructor
  · intro h
    by_contra hb
    rw [Bool.not_eq_true] at hb
    rw [validateWebhook_not_blocked f now st u hb] at h
    exact validateFetchStep_not_tma _ _ _ h
  · intro h
    rw [validateWebhook_blocked f now st u h]

theorem validateWebhook_lastAttempts (f : FetchOutcome) (now : Nat) (st : ServerState)
    (u : String) (hb : cooldownBlocked st.lastAttempts u now = false) :
    (validateWebhook f now st u).2.1.lastAttempts = mapSet st.lastAttempts u now := by
  rw [validateWebhook_not_blocked f now st u hb]
  rw [validateFetchStep_lastAttempts]

theorem validateWebhook_webhooks (f : FetchOutcome) (now : Nat) (st : ServerState)
    (u : String) : (validateWebhook f now st u).2.1.webhooks = st.webhooks := by
  by_cases hb : cooldownBlocked st.lastAttempts u now
  · rw [validateWebhook_blocked f now st u hb]
  · rw [validateWebhook_not_blocked f now st u (Bool.not_eq_true _ ▸ hb)]
    rw [validateFetchStep_webhooks]

theorem addWebhook_invalidFormat (f : FetchOutcome) (now : Nat) (st : ServerState)
    (u : String) (h : startsWithWebhookBase u = false) :
    addWebhook f now st u = (RegisterResult.invalidFormat, st, 0) := by
  simp [addWebhook, h]

theorem addWebhook_validate_err (f : FetchOutcome) (now : Nat) (st : ServerState)
    (u : String) (e : VErr) (st2 : ServerState) (n : Nat)
    (hp : startsWithWebhookBase u = true)
    (hv : validateWebhook f now st u = (VResult.err e, st2, n)) :
    addWebhook f now st u = (RegisterResult.validationError e, st2, n) := by
  simp [addWebhook, hp, hv]

theorem addWebhook_validate_ok_dup (f : FetchOutcome) (now : Nat) (st : ServerState)
    (u : String) (w : Webhook) (st2 : ServerState) (n : Nat)
    (hp : startsWithWebhookBase u = true)
    (hv : validateWebhook f now st u = (VResult.ok w, st2, n))
    (hd : st2.webhooks.any (fun x => x.url == u) = true) :
    addWebhook f now st u = (RegisterResult.duplicate, st2, n) := by
  simp [addWebhook, hp, hv, hd]

theorem addWebhook_validate_ok_new (f : FetchOutcome) (now : Nat) (st : ServerState)
    (u : String) (w : Webhook) (st2 : ServerState) (n : Nat)
    (hp : startsWithWebhookBase u = true)
    (hv : validateWebhook f now st u = (VResult.ok w, st2, n))
    (hd : st2.webhooks.any (fun x => x.url == u) = false) :
    addWebhook f now st u =
      (RegisterResult.success w, { st2 with webhooks := st2.webhooks ++ [w] }, n) := by
  simp [addWebhook, hp, hv, hd]

theorem addWebhook_success_inv (f : FetchOutcome) (now : Nat) (st : ServerState)
    (u : String) (w : Webhook) (st1 : ServerState) (n : Nat)
    (h : addWebhook f now st u = (RegisterResult.success w, st1, n)) :
    startsWithWebhookBase u = true
    ∧ ∃ st2, validateWebhook f now st u = (VResult.ok w, st2, n)
        ∧ st2.webhooks.any (fun x => x.url == u) = false
        ∧ st1 = { st2 with webhooks := st2.webhooks ++ [w] } := by
  by_cases hp : startsWithWebhookBase u
  · refine ⟨hp, ?_⟩
    rcases hv : validateWebhook f now st u with ⟨r, st2, n2⟩
    cases r with
    | err e =>
      rw [addWebhook_validate_err f now st u e st2 n2 hp hv] at h
      cases h
    | ok w0 =>
      by_cases hd : st2.webhooks.any (fun x => x.url == u)
      · rw [addWebhook_validate_ok_dup f now st u w0 st2 n2 hp hv hd] at h
        cases h
      · rw [Bool.not_eq_true] at hd
        rw [addWebhook_validate_ok_new f now st u w0 st2 n2 hp hv hd] at h
        simp only [Prod.mk.injEq, RegisterResult.success.injEq] at h
        obtain ⟨hw, hst, hn⟩ := h
        subst hw hn
        exact ⟨st2, rfl, hd, hst.symm⟩
  · rw [Bool.not_eq_true] at hp
    rw [addWebhook_invalidFormat f now st u hp] at h
    cases h

theorem addWebhook_success_facts (f : FetchOutcome) (now : Nat) (st : ServerState)
    (u : String) (w : Webhook) (st1 : ServerState) (n : Nat)
    (hcc : cacheConsistent st.webhookCache = true)
    (h : addWebhook f now st u = (RegisterResult.success w, st1, n)) :
    w.url = u
    ∧ st1.lastAttempts = mapSet st.lastAttempts u now
    ∧ mapGet st1.webhookCache u = some w
    ∧ st1.webhooks.any (fun x => x.url == u) = true := by
  obtain ⟨hp, st2, hv, hd, hst⟩ := addWebhook_success_inv f now st u w st1 n h
  have hb : cooldownBlocked st.lastAttempts u now = false := by
    by_contra hbt
    rw [Bool.not_eq_false] at hbt
    rw [validateWebhook_blocked f now st u hbt] at hv
    cases hv
  rw [validateWebhook_not_blocked f now st u hb] at hv
  have hok : (validateFetchStep f { st with lastAttempts := mapSet st.lastAttempts u now } u).1 = VResult.ok w := by
    rw [hv]
  have hurl : w.url = u :=
    validateFetchStep_ok_url f { st with lastAttempts := mapSet st.lastAttempts u now } u hcc w hok
  have hcget := validateFetchStep_ok_cacheGet f { st with lastAttempts := mapSet st.lastAttempts u now } u w hok
  rw [hv] at hcget
  have hla := validateFetchStep_lastAttempts f { st with lastAttempts := mapSet st.lastAttempts u now } u
  rw [hv] at hla
  subst hst
  refine ⟨hurl, hla, hcget, ?_⟩
  simp [List.any_append, hurl]

/-- Claim C8: a URL without the required webhook prefix is rejected with
`InvalidFormat` before validation: no outbound call is made and the
registry, cache and cooldown map are all left unchanged. -/
theorem c8_invalid_format_no_effects (f : FetchOutcome) (now : Nat) (st : ServerState)
    (u : String) (h : startsWithWebhookBase u = false) :
    addWebhook f now st u = (RegisterResult.invalidFormat, st, 0) :=
  addWebhook_invalidFormat f now st u h

/-- Witness for C8 at a concrete malformed URL and state. -/
theorem c8_invalid_format_no_effects_witness :
    addWebhook fetchOkA 0 stRegisteredA "http://example.com/hook" =
      (RegisterResult.invalidFormat, stRegisteredA, 0) :=
  c8_invalid_format_no_effects fetchOkA 0 stRegisteredA "http://example.com/hook" (by decide)

theorem addWebhook_err_iff (f : FetchOutcome) (now : Nat) (st : ServerState) (u : String)
    (e : VErr) (hp : startsWithWebhookBase u = true) :
    (addWebhook f now st u).1 = RegisterResult.validationError e ↔
      (validateWebhook f now st u).1 = VResult.err e := by
  rcases hv : validateWebhook f now st u with ⟨r, st2, n2⟩
  cases r with
  | err e0 =>
    rw [addWebhook_validate_err f now st u e0 st2 n2 hp hv]
    constructor
    · intro h
      cases h
      rfl
    · intro h
      cases h
      rfl
  | ok w0 =>
    constructor
    · intro h
      by_cases hd : st2.webhooks.any (fun x => x.url == u)
      · rw [addWebhook_validate_ok_dup f now st u w0 st2 n2 hp hv hd] at h
        cases h
      · rw [Bool.not_eq_true] at hd
        rw [addWebhook_validate_ok_new f now st u w0 st2 n2 hp hv hd] at h
        cases h
    · intro h
      cases h

theorem addWebhook_state_eq (f : FetchOutcome) (now : Nat) (st : ServerState) (u : String)
    (hp : startsWithWebhookBase u = true) :
    (addWebhook f now st u).2.1.lastAttempts = (validateWebhook f now st u).2.1.lastAttempts
    ∧ (addWebhook f now st u).2.1.webhookCache = (validateWebhook f now st u).2.1.webhookCache := by
  rcases hv : validateWebhook f now st u with ⟨r, st2, n2⟩
  cases r with
  | err e0 =>
    rw [addWebhook_validate_err f now st u e0 st2 n2 hp hv]
    exact ⟨rfl, rfl⟩
  | ok w0 =>
    by_cases hd : st2.webhooks.any (fun x => x.url == u)
    · rw [addWebhook_validate_ok_dup f now st u w0 st2 n2 hp hv hd]
      exact ⟨rfl, rfl⟩
    · rw [Bool.not_eq_true] at hd
      rw [addWebhook_validate_ok_new f now st u w0 st2 n2 hp hv hd]
      exact ⟨rfl, rfl⟩

theorem addWebhook_lastAttempts (f : FetchOutcome) (now : Nat) (st : ServerState)
    (u : String) (hp : startsWithWebhookBase u = true)
    (h : (addWebhook f now st u).1 ≠ RegisterResult.validationError VErr.tooManyAttempts) :
    (addWebhook f now st u).2.1.lastAttempts = mapSet st.lastAttempts u now := by
  have hv1 : (validateWebhook f now st u).1 ≠ VResult.err VErr.tooManyAttempts := by
    intro hc
    exact h ((addWebhook_err_iff f now st u VErr.tooManyAttempts hp).2 hc)
  have hb : cooldownBlocked st.lastAttempts u now = false := by
    by_contra hbt
    rw [Bool.not_eq_false] at hbt
    exact hv1 ((validateWebhook_tma_iff f now st u).2 hbt)
  rw [(addWebhook_state_eq f now st u hp).1]
  exact validateWebhook_lastAttempts f now st u hb

/-- Claim C3: for a URL of the required form, when a Register call passes
the cooldown gate (it does not itself fail with `TooManyAttempts`), any
second Register of the same URL starting within the 5-second cooldown
window after the first call's timestamp fails with `TooManyAttempts`,
whatever the remote would have answered. -/
theorem c3_second_register_in_cooldown (f1 f2 : FetchOutcome) (st : ServerState)
    (u : String) (t0 t1 : Nat)
    (hp : startsWithWebhookBase u = true)
    (h1 : (addWebhook f1 t0 st u).1 ≠ RegisterResult.validationError VErr.tooManyAttempts)
    (ht : t1 - t0 < cooldownMs) :
    (addWebhook f2 t1 (addWebhook f1 t0 st u).2.1 u).1 =
      RegisterResult.validationError VErr.tooManyAttempts := by
  have hla := addWebhook_lastAttempts f1 t0 st u hp h1
  have hb : cooldownBlocked (addWebhook f1 t0 st u).2.1.lastAttempts u t1 = true := by
    rw [hla]
    simp [cooldownBlocked, mapGet_mapSet_self, ht]
  exact (addWebhook_err_iff f2 t1 (addWebhook f1 t0 st u).2.1 u VErr.tooManyAttempts hp).2
    ((validateWebhook_tma_iff f2 t1 (addWebhook f1 t0 st u).2.1 u).2 hb)

/-- Witness for C3: registering `urlA` into the empty state at time 0
succeeds, and registering it again 1 second later is rejected with
`TooManyAttempts`. -/
theorem c3_second_register_in_cooldown_witness :
    (addWebhook fetchOkA 1000 (addWebhook fetchOkA 0 emptyState urlA).2.1 urlA).1 =
      RegisterResult.validationError VErr.tooManyAttempts :=
  c3_second_register_in_cooldown fetchOkA fetchOkA emptyState urlA 0 1000
    (by decide) (by decide) (by decide)

/-- Claim C1 counterexample: registering `urlA` into the empty state at
time 0 succeeds, but a second Register 1 second later — in immediate
succession, within the cooldown window — fails with `TooManyAttempts`,
not with `DuplicateEndpoint` as the claim states: the cooldown gate runs
first and the first call recorded the attempt time. -/
theorem c1_counterexample :
    (addWebhook fetchOkA 0 emptyState urlA).1 = RegisterResult.success webhookA
    ∧ (addWebhook fetchOkA 1000 (addWebhook fetchOkA 0 emptyState urlA).2.1 urlA).1 =
        RegisterResult.validationError VErr.tooManyAttempts
    ∧ RegisterResult.validationError VErr.tooManyAttempts ≠ RegisterResult.duplicate := by
  exact ⟨by decide, by decide, by decide⟩

/-- Claim C1 (amended): after a successful Register of a URL, a second
Register of the same URL starting within the cooldown window fails with
`TooManyAttempts`; only a second Register starting after the window has
expired fails with `DuplicateEndpoint` (and then without any new remote
call). -/
theorem c1_register_twice (f1 f2 : FetchOutcome) (st : ServerState) (u : String)
    (w : Webhook) (st1 : ServerState) (n1 t0 t1 : Nat)
    (hcc : cacheConsistent st.webhookCache = true)
    (h1 : addWebhook f1 t0 st u = (RegisterResult.success w, st1, n1)) :
    (t1 - t0 < cooldownMs →
      (addWebhook f2 t1 st1 u).1 = RegisterResult.validationError VErr.tooManyAttempts)
    ∧ (cooldownMs ≤ t1 - t0 →
      (addWebhook f2 t1 st1 u).1 = RegisterResult.duplicate
      ∧ (addWebhook f2 t1 st1 u).2.2 = 0) := by
  obtain ⟨hp, _⟩ := addWebhook_success_inv f1 t0 st u w st1 n1 h1
  obtain ⟨hurl, hla, hcget, hany⟩ := addWebhook_success_facts f1 t0 st u w st1 n1 hcc h1
  constructor
  · intro ht
    have hb : cooldownBlocked st1.lastAttempts u t1 = true := by
      rw [hla]
      simp [cooldownBlocked, mapGet_mapSet_self, ht]
    exact (addWebhook_err_iff f2 t1 st1 u VErr.tooManyAttempts hp).2
      ((validateWebhook_tma_iff f2 t1 st1 u).2 hb)
  · intro ht
    have hb : cooldownBlocked st1.lastAttempts u t1 = false := by
      rw [hla]
      simp [cooldownBlocked, mapGet_mapSet_self]
      omega
    have hv : validateWebhook f2 t1 st1 u =
        (VResult.ok w, { st1 with lastAttempts := mapSet st1.lastAttempts u t1 }, 0) := by
      rw [validateWebhook_not_blocked f2 t1 st1 u hb]
      exact validateFetchStep_cacheHit f2 _ u w hcget
    have := addWebhook_validate_ok_dup f2 t1 st1 u w
      { st1 with lastAttempts := mapSet st1.lastAttempts u t1 } 0 hp hv hany
    rw [this]
    exact ⟨rfl, rfl⟩

/-- Witness for C1 (amended) at a concrete double registration: the
second call 1 second later is rejected by the cooldown, and the second
call 6 seconds later is rejected as a duplicate. -/
theorem c1_register_twice_witness :
    (addWebhook fetchOkA 1000 stRegisteredA urlA).1 =
      RegisterResult.validationError VErr.tooManyAttempts
    ∧ (addWebhook fetchOkA 6000 stRegisteredA urlA).1 = RegisterResult.duplicate :=
  ⟨(c1_register_twice fetchOkA fetchOkA emptyState urlA webhookA stRegisteredA 1 0 1000
      (by decide) (by decide)).1 (by decide),
   ((c1_register_twice fetchOkA fetchOkA emptyState urlA webhookA stRegisteredA 1 0 6000
      (by decide) (by decide)).2 (by decide)).1⟩

/-- Claim C4 counterexample: `urlA` is successfully validated (and
registered) at time 0; the Register re-issued at time 6000 — after the
5-second cooldown window — does not return the cached Endpoint: it
fails with `DuplicateEndpoint` because the endpoint is still in the
registry.  It does, however, perform no new remote call. -/
theorem c4_counterexample :
    (addWebhook fetchOkA 0 emptyState urlA).1 = RegisterResult.success webhookA
    ∧ (addWebhook fetchOkA 6000 stRegisteredA urlA).1 = RegisterResult.duplicate
    ∧ (addWebhook fetchOkA 6000 stRegisteredA urlA).2.2 = 0 := by
  exact ⟨by decide, by decide, by decide⟩

/-- Claim C4 (amended): re-registering a URL whose validation result is
cached, once the cooldown window has expired, performs no new remote
validation call; the validation step returns the cached Endpoint, and
the Register call returns it successfully exactly when no endpoint with
that URL is left in the registry — otherwise it fails with
`DuplicateEndpoint`. -/
theorem c4_reregister_after_cooldown (f : FetchOutcome) (st : ServerState) (u : String)
    (w : Webhook) (t1 : Nat)
    (hc : mapGet st.webhookCache u = some w)
    (hp : startsWithWebhookBase u = true)
    (hb : cooldownBlocked st.lastAttempts u t1 = false) :
    (addWebhook f t1 st u).2.2 = 0
    ∧ (st.webhooks.any (fun x => x.url == u) = true →
        addWebhook f t1 st u =
          (RegisterResult.duplicate,
           { st with lastAttempts := mapSet st.lastAttempts u t1 }, 0))
    ∧ (st.webhooks.any (fun x => x.url == u) = false →
        addWebhook f t1 st u =
          (RegisterResult.success w,
           { st with webhooks := st.webhooks ++ [w],
                     lastAttempts := mapSet st.lastAttempts u t1 }, 0)) := by
  have hv : validateWebhook f t1 st u =
      (VResult.ok w, { st with lastAttempts := mapSet st.lastAttempts u t1 }, 0) := by
    rw [validateWebhook_not_blocked f t1 st u hb]
    exact validateFetchStep_cacheHit f _ u w hc
  by_cases hany : st.webhooks.any (fun x => x.url == u)
  · have hd := addWebhook_validate_ok_dup f t1 st u w
      { st with lastAttempts := mapSet st.lastAttempts u t1 } 0 hp hv hany
    rw [hd]
    exact ⟨rfl, fun _ => rfl, fun hf => by rw [hany] at hf; cases hf⟩
  · rw [Bool.not_eq_true] at hany
    have hd := addWebhook_validate_ok_new f t1 st u w
      { st with lastAttempts := mapSet st.lastAttempts u t1 } 0 hp hv hany
    refine ⟨by rw [hd], ?_, ?_⟩
    · intro hf
      rw [hany] at hf
      cases hf
    · intro _
      rw [hd]

/-- Witness for C4 (amended): re-registering `urlA` at time 6000 after
the successful registration at time 0 makes no remote call and is
rejected as a duplicate. -/
theorem c4_reregister_after_cooldown_witness :
    (addWebhook fetchOkA 6000 stRegisteredA urlA).2.2 = 0
    ∧ addWebhook fetchOkA 6000 stRegisteredA urlA =
        (RegisterResult.duplicate,
         { stRegisteredA with lastAttempts := mapSet stRegisteredA.lastAttempts urlA 6000 }, 0) :=
  ⟨(c4_reregister_after_cooldown fetchOkA stRegisteredA urlA webhookA 6000
      (by decide) (by decide) (by decide)).1,
   (c4_reregister_after_cooldown fetchOkA stRegisteredA urlA webhookA 6000
      (by decide) (by decide) (by decide)).2.1 (by decide)⟩

/-- Claim C5 counterexample: a validation call that is rejected by the
cooldown gate does not touch the cooldown map — the state comes back
unchanged, its entry for the URL still holding the old timestamp 0, not
the call time 1000 — so the cooldown map is not mutated by every call
unconditionally. -/
theorem c5_counterexample :
    validateWebhook fetchOkA 1000 stCooldownA urlA =
      (VResult.err VErr.tooManyAttempts, stCooldownA, 0)
    ∧ mapGet stCooldownA.lastAttempts urlA = some 0 := by
  exact ⟨by decide, by decide⟩

/-- Claim C5 (amended): every validation call that passes the cooldown
gate (that is, does not fail with `TooManyAttempts`) rewrites the
cooldown entry for its URL to the call time, even when the call later
fails; and on any validation failure the success cache is unchanged. -/
theorem c5_validate_side_effects (f : FetchOutcome) (now : Nat) (st : ServerState)
    (u : String) :
    ((validateWebhook f now st u).1 ≠ VResult.err VErr.tooManyAttempts →
      (validateWebhook f now st u).2.1.lastAttempts = mapSet st.lastAttempts u now)
    ∧ (∀ e, (validateWebhook f now st u).1 = VResult.err e →
      (validateWebhook f now st u).2.1.webhookCache = st.webhookCache) := by
  constructor
  · intro h
    have hb : cooldownBlocked st.lastAttempts u now = false := by
      by_contra hbt
      rw [Bool.not_eq_false] at hbt
      exact h ((validateWebhook_tma_iff f now st u).2 hbt)
    exact validateWebhook_lastAttempts f now st u hb
  · intro e h
    by_cases hb : cooldownBlocked st.lastAttempts u now
    · rw [validateWebhook_blocked f now st u hb]
    · rw [Bool.not_eq_true] at hb
      rw [validateWebhook_not_blocked f now st u hb] at h ⊢
      exact validateFetchStep_err_cache f _ u e h

/-- Witness for C5 (amended): a call passing the gate records the
attempt time, and a call failing on a thrown fetch error leaves the
cache unchanged. -/
theorem c5_validate_side_effects_witness :
    (validateWebhook fetchOkA 0 emptyState urlA).2.1.lastAttempts =
      mapSet emptyState.lastAttempts urlA 0
    ∧ (validateWebhook (FetchOutcome.thrown "socket timeout") 0 emptyState urlA).2.1.webhookCache =
        emptyState.webhookCache :=
  ⟨(c5_validate_side_effects fetchOkA 0 emptyState urlA).1 (by decide),
   (c5_validate_side_effects (FetchOutcome.thrown "socket timeout") 0 emptyState urlA).2
     (VErr.fetchFailed "socket timeout") (by decide)⟩

/-- Claim C6 counterexample: a Send carrying neither content nor file,
addressed to an identifier absent from the registry, fails with
`NotFound`, not `EmptyMessage` — the endpoint lookup runs before the
emptiness check, contrary to the claimed ordering. -/
theorem c6_counterexample :
    sendMessage postOk emptyState "123" none none = (SendResult.notFound, 0)
    ∧ SendResult.notFound ≠ SendResult.emptyMessage := by
  exact ⟨by decide, by decide⟩

/-- Claim C6 (amended): a Send carrying neither text content nor a file
fails with `EmptyMessage` and makes no outbound call, provided the
endpoint lookup succeeds; the lookup runs first, so the same empty Send
against an identifier absent from the registry fails with `NotFound`
(also without any outbound call). -/
theorem c6_empty_message (p : PostOutcome) (st st2 : ServerState) (wid : String)
    (c : Option String)
    (hid : wid ≠ "")
    (hfound : (st.webhooks.find? (fun w => w.id == wid)).isSome = true)
    (hc : strFalsy c = true)
    (hnone : st2.webhooks.find? (fun w => w.id == wid) = none) :
    sendMessage p st wid c none = (SendResult.emptyMessage, 0)
    ∧ sendMessage p st2 wid c none = (SendResult.notFound, 0) := by
  obtain ⟨w, hw⟩ := Option.isSome_iff_exists.1 hfound
  have hwid : (wid == "") = false := by
    rw [beq_eq_false_iff_ne]
    exact hid
  constructor
  · simp [sendMessage, hwid, hw, hc]
  · simp [sendMessage, hwid, hnone]

/-- Witness for C6 (amended): the empty Send to the registered id `123`
fails with `EmptyMessage`; the same empty Send against the empty
registry fails with `NotFound`. -/
theorem c6_empty_message_witness :
    sendMessage postOk stRegisteredA "123" none none = (SendResult.emptyMessage, 0)
    ∧ sendMessage postOk emptyState "123" none none = (SendResult.notFound, 0) :=
  c6_empty_message postOk stRegisteredA emptyState "123" none
    (by decide) (by decide) (by decide) (by decide)

/-- Claim C7 counterexample: when channel resolution itself throws (the
remote rejects the fetch, e.g. an unknown channel id), the handler
answers 500 `FetchFailed`, not the claimed 400 invalid-channel response;
so `FetchFailed` does not arise only from the later message fetch. -/
theorem c7_counterexample :
    fetchMessages (ResolveOutcome.thrown "Unknown Channel") (MessagesOutcome.fetched []) =
      FetchMessagesResult.fetchFailed "Failed to fetch messages: Unknown Channel"
    ∧ fetchMessagesStatus (fetchMessages (ResolveOutcome.thrown "Unknown Channel")
        (MessagesOutcome.fetched [])) = 500 := by
  exact ⟨by decide, by decide⟩

/-- Claim C7 (amended): the 400 invalid-channel response arises exactly
when resolution yields no channel or a non-text-capable channel; any
thrown remote failure — during resolution as well as during the message
fetch — is answered 500 `FetchFailed` carrying the underlying error
text. -/
theorem c7_fetch_error_routing (m : MessagesOutcome) (ch : Channel) (e : String) :
    (fetchMessages (ResolveOutcome.resolved none) m = FetchMessagesResult.invalidChannel
      ∧ fetchMessagesStatus (fetchMessages (ResolveOutcome.resolved none) m) = 400)
    ∧ (ch.textBased = false →
        fetchMessages (ResolveOutcome.resolved (some ch)) m =
          FetchMessagesResult.invalidChannel)
    ∧ (fetchMessages (ResolveOutcome.thrown e) m =
        FetchMessagesResult.fetchFailed ("Failed to fetch messages: " ++ e)
      ∧ fetchMessagesStatus (fetchMessages (ResolveOutcome.thrown e) m) = 500)
    ∧ (ch.textBased = true → ch.viewChannel = true → ch.readMessageHistory = true →
        fetchMessages (ResolveOutcome.resolved (some ch)) (MessagesOutcome.thrown e) =
          FetchMessagesResult.fetchFailed ("Failed to fetch messages: " ++ e)) := by
  refine ⟨⟨rfl, rfl⟩, ?_, ⟨rfl, rfl⟩, ?_⟩
  · intro h
    simp [fetchMessages, h]
  · intro h1 h2 h3
    simp [fetchMessages, h1, h2, h3]

/-- Witness for C7 (amended) at concrete channels and errors. -/
theorem c7_fetch_error_routing_witness :
    fetchMessages (ResolveOutcome.resolved
        (some { textBased := false, viewChannel := true, readMessageHistory := true }))
      (MessagesOutcome.fetched []) = FetchMessagesResult.invalidChannel
    ∧ fetchMessages (ResolveOutcome.resolved
        (some { textBased := true, viewChannel := true, readMessageHistory := true }))
      (MessagesOutcome.thrown "ECONNRESET") =
        FetchMessagesResult.fetchFailed ("Failed to fetch messages: " ++ "ECONNRESET") :=
  ⟨(c7_fetch_error_routing (MessagesOutcome.fetched [])
      { textBased := false, viewChannel := true, readMessageHistory := true } "x").2.1 rfl,
   (c7_fetch_error_routing (MessagesOutcome.thrown "ECONNRESET")
      { textBased := true, viewChannel := true, readMessageHistory := true }
      "ECONNRESET").2.2.2 rfl rfl rfl⟩

theorem find?_cons_pos {α : Type} (a : α) (t : List α) (p : α → Bool)
    (h : p a = true) : List.find? p (a :: t) = some a :=
  List.find?_cons_of_pos t h

theorem find?_cons_neg {α : Type} (a : α) (t : List α) (p : α → Bool)
    (h : p a = false) : List.find? p (a :: t) = List.find? p t :=
  List.find?_cons_of_neg t (by rw [h]; exact Bool.false_ne_true)

theorem spliceFirstById_none_iff (l : List Webhook) (i : String) :
    spliceFirstById l i = none ↔ l.find? (fun x => x.id == i) = none := by
  induction l with
  | nil => simp [spliceFirstById]
  | cons a t ih =>
    by_cases ha : (a.id == i) = true
    · rw [find?_cons_pos a t (fun x => x.id == i) ha]
      simp [spliceFirstById, ha]
    · rw [Bool.not_eq_true] at ha
      rw [find?_cons_neg a t (fun x => x.id == i) ha]
      simp only [spliceFirstById, ha, Bool.false_eq_true, if_false,
        Option.map_eq_none']
      exact ih

theorem spliceFirstById_mem (l : List Webhook) (i : String) :
    ∀ (l2 : List Webhook) (w : Webhook),
      (l.map (fun x => x.id)).Nodup →
      l.find? (fun x => x.id == i) = some w →
      spliceFirstById l i = some l2 →
      ∀ x, x ∈ l2 ↔ (x ∈ l ∧ x ≠ w) := by
  induction l with
  | nil =>
    intro l2 w _ hf
    simp at hf
  | cons a t ih =>
    intro l2 w hn hf hs x
    rw [List.map_cons, List.nodup_cons] at hn
    obtain ⟨hna, hnt⟩ := hn
    by_cases ha : (a.id == i) = true
    · rw [find?_cons_pos a t (fun x => x.id == i) ha] at hf
      injection hf with hf
      subst hf
      simp only [spliceFirstById, ha, if_true] at hs
      injection hs with hs
      subst hs
      constructor
      · intro hx
        refine ⟨List.mem_cons_of_mem _ hx, ?_⟩
        intro hxa
        subst hxa
        exact hna (List.mem_map_of_mem _ hx)
      · rintro ⟨hx, hxa⟩
        rcases List.mem_cons.1 hx with h | h
        · exact absurd h hxa
        · exact h
    · rw [Bool.not_eq_true] at ha
      rw [find?_cons_neg a t (fun x => x.id == i) ha] at hf
      have haw : a ≠ w := by
        intro he
        have hwp := List.find?_some hf
        rw [← he] at hwp
        rw [hwp] at ha
        cases ha
      simp only [spliceFirstById, ha, Bool.false_eq_true, if_false] at hs
      rcases ht : spliceFirstById t i with _ | t2
      · rw [ht] at hs
        cases hs
      · rw [ht] at hs
        simp only [Option.map_some'] at hs
        injection hs with hs
        subst hs
        have iht := ih t2 w hnt hf ht x
        constructor
        · intro hx
          rcases List.mem_cons.1 hx with h | h
          · subst h
            exact ⟨List.mem_cons_self _ _, haw⟩
          · obtain ⟨h1, h2⟩ := iht.1 h
            exact ⟨List.mem_cons_of_mem _ h1, h2⟩
        · rintro ⟨hx, hxw⟩
          rcases List.mem_cons.1 hx with h | h
          · subst h
            exact List.mem_cons_self _ _
          · exact List.mem_cons_of_mem _ (iht.2 ⟨h, hxw⟩)

theorem find?_id_self (l : List Webhook) (w : Webhook)
    (hn : (l.map (fun x => x.id)).Nodup) (hw : w ∈ l) :
    l.find? (fun x => x.id == w.id) = some w := by
  induction l with
  | nil => cases hw
  | cons a t ih =>
    rw [List.map_cons, List.nodup_cons] at hn
    obtain ⟨hna, hnt⟩ := hn
    rcases List.mem_cons.1 hw with h | h
    · subst h
      exact find?_cons_pos _ _ _ (by simp)
    · have haw : (a.id == w.id) = false := by
        rw [beq_eq_false_iff_ne]
        intro he
        exact hna (he ▸ List.mem_map_of_mem _ h)
      rw [find?_cons_neg a t (fun x => x.id == w.id) haw]
      exact ih hnt h

/-- Claim C9: deleting an identifier absent from the registry answers
`NotFound` and returns the state unchanged; deleting a present
identifier (under the registry invariant that stored ids are pairwise
distinct) succeeds, removes exactly that endpoint, and afterwards both
the lookup by that identifier and a Send addressed to it answer
`NotFound`. -/
theorem c9_delete (st : ServerState) (i : String) :
    (st.webhooks.find? (fun x => x.id == i) = none →
      deleteWebhook st i = (DeleteResult.notFound, st))
    ∧ (∀ w, (st.webhooks.map (fun x => x.id)).Nodup →
        st.webhooks.find? (fun x => x.id == i) = some w →
        i ≠ "" →
        (deleteWebhook st i).1 = DeleteResult.success
        ∧ (∀ x, x ∈ (deleteWebhook st i).2.webhooks ↔ (x ∈ st.webhooks ∧ x ≠ w))
        ∧ (deleteWebhook st i).2.webhooks.find? (fun x => x.id == i) = none
        ∧ ∀ p c fl, (sendMessage p (deleteWebhook st i).2 i c fl).1 = SendResult.notFound) := by
  constructor
  · intro hf
    unfold deleteWebhook
    rw [(spliceFirstById_none_iff st.webhooks i).2 hf]
  · intro w hn hf hne
    rcases hs : spliceFirstById st.webhooks i with _ | l2
    · rw [(spliceFirstById_none_iff st.webhooks i).1 hs] at hf
      cases hf
    · have hdel : deleteWebhook st i = (DeleteResult.success, { st with webhooks := l2 }) := by
        unfold deleteWebhook
        rw [hs]
      have hmem := spliceFirstById_mem st.webhooks i l2 w hn hf hs
      have hwid := List.find?_some hf
      rw [beq_iff_eq] at hwid
      have hnone : l2.find? (fun x => x.id == i) = none := by
        rw [List.find?_eq_none]
        intro x hx hxp
        rw [beq_iff_eq] at hxp
        obtain ⟨hxl, hxw⟩ := (hmem x).1 hx
        apply hxw
        apply List.inj_on_of_nodup_map hn hxl (List.mem_of_find?_eq_some hf)
        rw [hxp, hwid]
      rw [hdel]
      refine ⟨rfl, hmem, hnone, ?_⟩
      intro p c fl
      have hi : (i == "") = false := by
        rw [beq_eq_false_iff_ne]
        exact hne
      simp [sendMessage, hi, hnone]

/-- Witness for C9: deleting the unknown id `999` from the one-endpoint
registry answers `NotFound` unchanged, deleting the registered id `123`
succeeds, and the subsequent lookup and Send answer `NotFound`. -/
theorem c9_delete_witness :
    deleteWebhook stRegisteredA "999" = (DeleteResult.notFound, stRegisteredA)
    ∧ (deleteWebhook stRegisteredA "123").1 = DeleteResult.success
    ∧ (deleteWebhook stRegisteredA "123").2.webhooks.find? (fun x => x.id == "123") = none
    ∧ (sendMessage postOk (deleteWebhook stRegisteredA "123").2 "123"
        (some "hi") none).1 = SendResult.notFound :=
  ⟨(c9_delete stRegisteredA "999").1 (by decide),
   ((c9_delete stRegisteredA "123").2 webhookA (by decide) (by decide) (by decide)).1,
   ((c9_delete stRegisteredA "123").2 webhookA (by decide) (by decide) (by decide)).2.2.1,
   ((c9_delete stRegisteredA "123").2 webhookA (by decide) (by decide) (by decide)).2.2.2
     postOk (some "hi") none⟩

/-- Claim C10: Delete touches only the registry list — the validation
cache and the cooldown map come back unchanged — so re-registering the
deleted endpoint's URL after the cooldown window succeeds from the
cache: the previously cached Endpoint is returned and re-appended to
the registry with no new remote validation call.  The registry
invariants (distinct ids, distinct urls) are hypotheses. -/
theorem c10_delete_then_reregister (st : ServerState) (ep : Webhook) (f : FetchOutcome)
    (t1 : Nat)
    (hnid : (st.webhooks.map (fun x => x.id)).Nodup)
    (hnurl : (st.webhooks.map (fun x => x.url)).Nodup)
    (hmem : ep ∈ st.webhooks)
    (hc : mapGet st.webhookCache ep.url = some ep)
    (hp : startsWithWebhookBase ep.url = true)
    (hb : cooldownBlocked st.lastAttempts ep.url t1 = false) :
    (deleteWebhook st ep.id).1 = DeleteResult.success
    ∧ (deleteWebhook st ep.id).2.webhookCache = st.webhookCache
    ∧ (deleteWebhook st ep.id).2.lastAttempts = st.lastAttempts
    ∧ addWebhook f t1 (deleteWebhook st ep.id).2 ep.url =
        (RegisterResult.success ep,
         { (deleteWebhook st ep.id).2 with
             webhooks := (deleteWebhook st ep.id).2.webhooks ++ [ep],
             lastAttempts := mapSet st.lastAttempts ep.url t1 }, 0) := by
  have hf : st.webhooks.find? (fun x => x.id == ep.id) = some ep :=
    find?_id_self st.webhooks ep hnid hmem
  rcases hs : spliceFirstById st.webhooks ep.id with _ | l2
  · rw [(spliceFirstById_none_iff st.webhooks ep.id).1 hs] at hf
    cases hf
  · have hdel : deleteWebhook st ep.id = (DeleteResult.success, { st with webhooks := l2 }) := by
      unfold deleteWebhook
      rw [hs]
    have hmem2 := spliceFirstById_mem st.webhooks ep.id l2 ep hnid hf hs
    have hany : l2.any (fun x => x.url == ep.url) = false := by
      rw [List.any_eq_false]
      intro x hx hxp
      rw [beq_iff_eq] at hxp
      obtain ⟨hxl, hxw⟩ := (hmem2 x).1 hx
      exact hxw (List.inj_on_of_nodup_map hnurl hxl hmem hxp)
    rw [hdel]
    have hv : validateWebhook f t1 { st with webhooks := l2 } ep.url =
        (VResult.ok ep,
         { st with webhooks := l2, lastAttempts := mapSet st.lastAttempts ep.url t1 }, 0) := by
      rw [validateWebhook_not_blocked f t1 { st with webhooks := l2 } ep.url hb]
      exact validateFetchStep_cacheHit f _ ep.url ep hc
    have := addWebhook_validate_ok_new f t1 { st with webhooks := l2 } ep.url ep
      { st with webhooks := l2, lastAttempts := mapSet st.lastAttempts ep.url t1 } 0 hp hv hany
    exact ⟨rfl, rfl, rfl, this⟩

/-- Witness for C10: deleting the registered endpoint `123` and
re-registering `urlA` at time 6000 succeeds from the cache with no
remote call. -/
theorem c10_delete_then_reregister_witness :
    (deleteWebhook stRegisteredA webhookA.id).1 = DeleteResult.success
    ∧ (deleteWebhook stRegisteredA webhookA.id).2.webhookCache = stRegisteredA.webhookCache
    ∧ (deleteWebhook stRegisteredA webhookA.id).2.lastAttempts = stRegisteredA.lastAttempts
    ∧ addWebhook fetchOkA 6000 (deleteWebhook stRegisteredA webhookA.id).2 webhookA.url =
        (RegisterResult.success webhookA,
         { (deleteWebhook stRegisteredA webhookA.id).2 with
             webhooks := (deleteWebhook stRegisteredA webhookA.id).2.webhooks ++ [webhookA],
             lastAttempts := mapSet stRegisteredA.lastAttempts webhookA.url 6000 }, 0) :=
  c10_delete_then_reregister stRegisteredA webhookA fetchOkA 6000
    (by decide) (by decide) (by decide) (by decide) (by decide) (by decide)

/-- Claim C2: the capped-wait validation variant does not retry at most
once — against a remote that answers every GET with 429 and a 6-second
`retry-after` (within the 10-second cap, beyond the 5-second cooldown),
the recursion of src/server.js line 323 re-validates after every sleep:
for every unrolling bound `fuel` it performs `fuel + 1` remote calls and
still has not finished, so the number of remote calls grows without
bound and the claimed single bounded retry does not hold. -/
theorem c2_capped_retry_unbounded (u : String) :
    ∀ (fuel k now : Nat) (st : ServerState),
      mapGet st.webhookCache u = none →
      cooldownBlocked st.lastAttempts u now = false →
      (validateWebhookCapped alwaysRateLimited u fuel k now st).1 =
        CappedOutcome.fuelExhausted
      ∧ (validateWebhookCapped alwaysRateLimited u fuel k now st).2.2 = fuel + 1 := by
  intro fuel
  induction fuel with
  | zero =>
    intro k now st hc hb
    rw [validateWebhookCapped]
    simp [hb, hc, alwaysRateLimited, retryAfterMs, maxRetryAfterMs]
  | succ fuel ih =>
    intro k now st hc hb
    have hb1 : cooldownBlocked (mapSet st.lastAttempts u now) u (now + 6000) = false := by
      simp [cooldownBlocked, mapGet_mapSet_self, cooldownMs]
    obtain ⟨h1, h2⟩ := ih (k + 1) (now + 6000)
      { st with lastAttempts := mapSet st.lastAttempts u now } hc hb1
    have step : validateWebhookCapped alwaysRateLimited u (fuel + 1) k now st =
        ((validateWebhookCapped alwaysRateLimited u fuel (k + 1) (now + 6000)
            { st with lastAttempts := mapSet st.lastAttempts u now }).1,
         (validateWebhookCapped alwaysRateLimited u fuel (k + 1) (now + 6000)
            { st with lastAttempts := mapSet st.lastAttempts u now }).2.1,
         (validateWebhookCapped alwaysRateLimited u fuel (k + 1) (now + 6000)
            { st with lastAttempts := mapSet st.lastAttempts u now }).2.2 + 1) := by
      conv_lhs => rw [validateWebhookCapped]
      simp [hb, hc, alwaysRateLimited, retryAfterMs, maxRetryAfterMs]
    rw [step]
    exact ⟨h1, by rw [h2]⟩

/-- Witness for C2 at the empty state: with an unrolling bound of 2 the
run makes 3 remote calls and is still retrying. -/
theorem c2_capped_retry_unbounded_witness :
    (validateWebhookCapped alwaysRateLimited urlA 2 0 0 emptyState).1 =
      CappedOutcome.fuelExhausted
    ∧ (validateWebhookCapped alwaysRateLimited urlA 2 0 0 emptyState).2.2 = 3 :=
  c2_capped_retry_unbounded urlA 2 0 0 emptyState (by decide) (by decide)
